import Mathlib

/-!
# SessionsIS: the `verifyBiometricSignature` callable

A shallow embedding of `functions/index.js`.  The file exports one callable
handler.  It destructures the request payload, reads the caller's key document
from the `userKeys` collection, checks the signature with the `crypto` verify
primitive and, when the check passes, asks `admin.auth()` for a custom token.

The three libraries the handler talks to (Firestore, `crypto`, Firebase Auth)
are collaborators: their behaviour is a parameter of the model, and every
theorem below quantifies over it.
-/

namespace SessionsIS

/-! ## JavaScript values -/

/-- The JavaScript values a request payload or a stored key document can hold.
`num` stands for a number by its integer value (any non-zero number behaves
like a non-zero `num` here) and `nan` for `NaN`; an array behaves like an
object that has none of the keys read here. -/
inductive JSVal where
  | undefined
  | null
  | bool (b : Bool)
  | num (n : Int)
  | nan
  | str (s : String)
  | obj (fields : List (String × JSVal))

/-- Whether a value is `null` or `undefined`: destructuring such a value throws,
and optional chaining (`?.`) short-circuits on it. -/
def isNullish : JSVal → Bool
  | .undefined => true
  | .null => true
  | _ => false

/-- JavaScript truthiness (`ToBoolean`), as used by `!publicKey`. -/
def toBoolean : JSVal → Bool
  | .undefined => false
  | .null => false
  | .bool b => b
  | .num n => n != 0
  | .nan => false
  | .str s => s != ""
  | .obj _ => true

/-- Property read `v.key` on a value that is not nullish, for the keys the
handler reads (`userId`, `challenge`, `signature`, `publicKey`): an object
gives the field or `undefined`, a primitive has no such property. -/
def getProp (v : JSVal) (key : String) : JSVal :=
  match v with
  | .obj fields => (fields.lookup key).getD .undefined
  | _ => .undefined

/-- Optional chaining `v?.key`. -/
def optProp (v : JSVal) (key : String) : JSVal :=
  if isNullish v then .undefined else getProp v key

/-! ## Outcomes, collaborators and calls -/

/-- What a run of the handler can throw. -/
inductive Thrown (E : Type) where
  /-- The value of `new functions.https.HttpsError(code, message)`. -/
  | httpsError (code message : String)
  /-- The `TypeError` of destructuring `null` or `undefined`. -/
  | typeError
  /-- A failure raised by a collaborator, passed on as it is. -/
  | collaborator (e : E)

/-- The result of the handler: the value it resolves to, or what it throws. -/
abbrev Outcome (E : Type) := Except (Thrown E) JSVal

/-- The calls a handler can make on the Key Registry, the verify primitive and
the Token Issuer. -/
inductive Event where
  /-- The read `collection('userKeys').doc(userId).get()`. -/
  | registryGet (userId : JSVal)
  /-- A write to a `userKeys` document (`set`, `update` or `delete`). -/
  | registryWrite (userId : JSVal)
  /-- The check `createVerify('SHA256')`, `update(challenge)`,
  `verify(publicKey, signature, 'base64')`. -/
  | verify (publicKey challenge signature : JSVal)
  /-- The call `admin.auth().createCustomToken(userId)`. -/
  | mint (userId : JSVal)

/-- The state the collaborators own: the contents of the Key Registry and the
state of the Token Issuer. -/
structure World (R T : Type) where
  registry : R
  issuer : T

/-- The behaviour of the collaborators.  `E` is the type of their failures. -/
structure Collaborators (R T E : Type) where
  /-- The call `admin.firestore().collection('userKeys').doc(userId).get()` with
  `.data()` of the snapshot: the document's fields, `undefined` when there is
  no document, or a failure of the read. -/
  get : R → JSVal → Except E JSVal
  /-- The lines `crypto.createVerify('SHA256')`, `verifier.update(challenge)`,
  `verifier.verify(publicKey, signature, 'base64')`, as a function of
  `publicKey`, `challenge` and `signature`: a boolean, or what the
  primitive throws. -/
  verify : JSVal → JSVal → JSVal → Except E Bool
  /-- The call `admin.auth().createCustomToken(userId)`: the token string or a
  failure, and the issuer's next state. -/
  createCustomToken : T → JSVal → Except E String × T

/-- One run of the handler: its outcome, the calls it made in order, and the
world it leaves. -/
structure Run (R T E : Type) where
  outcome : Outcome E
  trace : List Event
  world : World R T

/-- The handler `exports.verifyBiometricSignature`. -/
def verifyBiometricSignature {R T E : Type} (c : Collaborators R T E)
    (w : World R T) (data : JSVal) : Run R T E :=
  -- const { userId, challenge, signature } = data;
  if isNullish data then
    ⟨.error .typeError, [], w⟩
  else
    let userId := getProp data "userId"
    let challenge := getProp data "challenge"
    let signature := getProp data "signature"
    -- 1. Get stored public key
    match c.get w.registry userId with
    | .error e => ⟨.error (.collaborator e), [.registryGet userId], w⟩
    | .ok userDoc =>
      let publicKey := optProp userDoc "publicKey"
      if !toBoolean publicKey then
        ⟨.error (.httpsError "not-found" "Public key not found"),
          [.registryGet userId], w⟩
      else
        -- 2. Verify signature
        match c.verify publicKey challenge signature with
        | .error e =>
          ⟨.error (.collaborator e),
            [.registryGet userId, .verify publicKey challenge signature], w⟩
        | .ok isValid =>
          if !isValid then
            ⟨.error (.httpsError "unauthenticated" "Invalid signature"),
              [.registryGet userId, .verify publicKey challenge signature], w⟩
          else
            -- 3. Create custom token
            match c.createCustomToken w.issuer userId with
            | (.error e, t) =>
              ⟨.error (.collaborator e),
                [.registryGet userId, .verify publicKey challenge signature,
                  .mint userId],
                ⟨w.registry, t⟩⟩
            | (.ok token, t) =>
              ⟨.ok (.str token),
                [.registryGet userId, .verify publicKey challenge signature,
                  .mint userId],
                ⟨w.registry, t⟩⟩

/-- The world after a sequence of calls of the handler, one after the other. -/
def runCalls {R T E : Type} (c : Collaborators R T E) (w : World R T) :
    List JSVal → World R T
  | [] => w
  | data :: rest => runCalls c (verifyBiometricSignature c w data).world rest

/-- Modelled from the spec: the error code the platform's callable wrapper
(`functions.https.onCall`, a library outside the repository) reports to the
caller.  An `HttpsError` keeps its code; any other thrown value is reported
under the implementation-defined internal code. -/
def surfacedCode {E : Type} (internalCode : String) : Outcome E → Option String
  | .ok _ => none
  | .error (.httpsError code _) => some code
  | .error _ => some internalCode

/-- Whether an event is a call on the Token Issuer. -/
def Event.isMint : Event → Bool
  | .mint _ => true
  | _ => false

/-- Whether an event is a write to the Key Registry. -/
def Event.isWrite : Event → Bool
  | .registryWrite _ => true
  | _ => false

/-! ## Concrete collaborators used at the explicit inputs -/

/-- A stored key document `{publicKey: "PEM"}`. -/
def keyDoc : JSVal := .obj [("publicKey", .str "PEM")]

/-- The documents of the `userKeys` collection in the examples: key documents
for `"u1"` and `"down"`, and a document for `"u3"` whose stored key is not a
PEM key. -/
def demoRecords : List (String × JSVal) :=
  [("u1", keyDoc), ("down", keyDoc), ("u3", .obj [("publicKey", .str "garbage")])]

/-- Whether `collection('userKeys').doc(userId)` accepts the identifier: a
non-empty string that names one path segment, so without a `/`. -/
def validDocumentId : JSVal → Bool
  | .str s => s != "" && !s.toList.contains '/'
  | _ => false

/-- A registry holding `demoRecords`: the read throws on an identifier `doc`
does not accept and otherwise returns the document or `undefined`.  The verify
primitive throws on a key it cannot parse and on a challenge or signature that
is not a string; under the key `"PEM"` it accepts the signature `"c2ln"` over
the challenge `"nonce-abc"` and rejects everything else.  The issuer numbers
its tokens and is unreachable for the user `"down"`. -/
def demo : Collaborators Unit Nat String where
  get := fun _ userId =>
    match userId with
    | .str s =>
      if validDocumentId (.str s) then .ok ((demoRecords.lookup s).getD .undefined)
      else .error "invalid documentPath"
    | _ => .error "invalid documentPath"
  verify := fun publicKey challenge signature =>
    match publicKey, challenge, signature with
    | .str "PEM", .str ch, .str sig => .ok (ch == "nonce-abc" && sig == "c2ln")
    | .str "PEM", _, _ => .error "ERR_INVALID_ARG_TYPE"
    | _, _, _ => .error "ERR_OSSL_UNSUPPORTED"
  createCustomToken := fun n userId =>
    match userId with
    | .str "down" => (.error "auth/network-request-failed", n)
    | _ => (.ok ("token-" ++ toString n), n + 1)

/-- The request payload `{userId, challenge, signature}`. -/
def request (userId challenge signature : JSVal) : JSVal :=
  .obj [("userId", userId), ("challenge", challenge), ("signature", signature)]

/-- The starting world of the examples. -/
def world0 : World Unit Nat := ⟨(), 0⟩

/-! ## Reading the payload and the key document -/

theorem getProp_request_userId (u ch sig : JSVal) :
    getProp (request u ch sig) "userId" = u := by
  rfl

theorem getProp_request_challenge (u ch sig : JSVal) :
    getProp (request u ch sig) "challenge" = ch := by
  rfl

theorem getProp_request_signature (u ch sig : JSVal) :
    getProp (request u ch sig) "signature" = sig := by
  rfl

theorem isNullish_request (u ch sig : JSVal) :
    isNullish (request u ch sig) = false := by
  rfl

/-- A stored key that is a non-empty string, as every PEM key is, is truthy. -/
theorem toBoolean_str_of_ne_empty (s : String) (h : s ≠ "") :
    toBoolean (.str s) = true := by
  simp [toBoolean, h]

/-- A missing document has no `publicKey`. -/
theorem optProp_undefined (key : String) : optProp .undefined key = .undefined := by
  rfl

/-- A document without the field `publicKey` reads as `undefined`. -/
theorem optProp_obj_of_lookup_none (fields : List (String × JSVal)) (key : String)
    (h : fields.lookup key = none) : optProp (.obj fields) key = .undefined := by
  simp [optProp, isNullish, getProp, h]

/-! ## The paths of the handler -/

section Paths

variable {R T E : Type} (c : Collaborators R T E) (w : World R T) (data : JSVal)

/-- The payload cannot be destructured. -/
theorem run_of_nullish (hdata : isNullish data = true) :
    verifyBiometricSignature c w data = ⟨.error .typeError, [], w⟩ := by
  simp [verifyBiometricSignature, hdata]

/-- The registry read fails. -/
theorem run_of_get_error (e : E) (hdata : isNullish data = false)
    (hget : c.get w.registry (getProp data "userId") = .error e) :
    verifyBiometricSignature c w data =
      ⟨.error (.collaborator e), [.registryGet (getProp data "userId")], w⟩ := by
  simp [verifyBiometricSignature, hdata, hget]

/-- The registry read gives no usable key. -/
theorem run_of_no_key (userDoc : JSVal) (hdata : isNullish data = false)
    (hget : c.get w.registry (getProp data "userId") = .ok userDoc)
    (hkey : toBoolean (optProp userDoc "publicKey") = false) :
    verifyBiometricSignature c w data =
      ⟨.error (.httpsError "not-found" "Public key not found"),
        [.registryGet (getProp data "userId")], w⟩ := by
  simp [verifyBiometricSignature, hdata, hget, hkey]

/-- The verify primitive throws. -/
theorem run_of_verify_error (userDoc : JSVal) (e : E) (hdata : isNullish data = false)
    (hget : c.get w.registry (getProp data "userId") = .ok userDoc)
    (hkey : toBoolean (optProp userDoc "publicKey") = true)
    (hverify : c.verify (optProp userDoc "publicKey") (getProp data "challenge")
      (getProp data "signature") = .error e) :
    verifyBiometricSignature c w data =
      ⟨.error (.collaborator e),
        [.registryGet (getProp data "userId"),
          .verify (optProp userDoc "publicKey") (getProp data "challenge")
            (getProp data "signature")], w⟩ := by
  simp [verifyBiometricSignature, hdata, hget, hkey, hverify]

/-- The verify primitive answers `false`. -/
theorem run_of_verify_false (userDoc : JSVal) (hdata : isNullish data = false)
    (hget : c.get w.registry (getProp data "userId") = .ok userDoc)
    (hkey : toBoolean (optProp userDoc "publicKey") = true)
    (hverify : c.verify (optProp userDoc "publicKey") (getProp data "challenge")
      (getProp data "signature") = .ok false) :
    verifyBiometricSignature c w data =
      ⟨.error (.httpsError "unauthenticated" "Invalid signature"),
        [.registryGet (getProp data "userId"),
          .verify (optProp userDoc "publicKey") (getProp data "challenge")
            (getProp data "signature")], w⟩ := by
  simp [verifyBiometricSignature, hdata, hget, hkey, hverify]

/-- The verify primitive answers `true` and the issuer fails. -/
theorem run_of_mint_error (userDoc : JSVal) (e : E) (t : T)
    (hdata : isNullish data = false)
    (hget : c.get w.registry (getProp data "userId") = .ok userDoc)
    (hkey : toBoolean (optProp userDoc "publicKey") = true)
    (hverify : c.verify (optProp userDoc "publicKey") (getProp data "challenge")
      (getProp data "signature") = .ok true)
    (hmint : c.createCustomToken w.issuer (getProp data "userId") = (.error e, t)) :
    verifyBiometricSignature c w data =
      ⟨.error (.collaborator e),
        [.registryGet (getProp data "userId"),
          .verify (optProp userDoc "publicKey") (getProp data "challenge")
            (getProp data "signature"),
          .mint (getProp data "userId")], ⟨w.registry, t⟩⟩ := by
  simp [verifyBiometricSignature, hdata, hget, hkey, hverify, hmint]

/-- The verify primitive answers `true` and the issuer mints a token. -/
theorem run_of_mint_ok (userDoc : JSVal) (token : String) (t : T)
    (hdata : isNullish data = false)
    (hget : c.get w.registry (getProp data "userId") = .ok userDoc)
    (hkey : toBoolean (optProp userDoc "publicKey") = true)
    (hverify : c.verify (optProp userDoc "publicKey") (getProp data "challenge")
      (getProp data "signature") = .ok true)
    (hmint : c.createCustomToken w.issuer (getProp data "userId") = (.ok token, t)) :
    verifyBiometricSignature c w data =
      ⟨.ok (.str token),
        [.registryGet (getProp data "userId"),
          .verify (optProp userDoc "publicKey") (getProp data "challenge")
            (getProp data "signature"),
          .mint (getProp data "userId")], ⟨w.registry, t⟩⟩ := by
  simp [verifyBiometricSignature, hdata, hget, hkey, hverify, hmint]

/-- Every run takes one of the seven paths of the handler. -/
theorem run_cases :
    (isNullish data = true ∧
      verifyBiometricSignature c w data = ⟨.error .typeError, [], w⟩) ∨
    (isNullish data = false ∧ ∃ e,
      c.get w.registry (getProp data "userId") = .error e ∧
      verifyBiometricSignature c w data =
        ⟨.error (.collaborator e), [.registryGet (getProp data "userId")], w⟩) ∨
    (isNullish data = false ∧ ∃ userDoc,
      c.get w.registry (getProp data "userId") = .ok userDoc ∧
      toBoolean (optProp userDoc "publicKey") = false ∧
      verifyBiometricSignature c w data =
        ⟨.error (.httpsError "not-found" "Public key not found"),
          [.registryGet (getProp data "userId")], w⟩) ∨
    (isNullish data = false ∧ ∃ userDoc e,
      c.get w.registry (getProp data "userId") = .ok userDoc ∧
      toBoolean (optProp userDoc "publicKey") = true ∧
      c.verify (optProp userDoc "publicKey") (getProp data "challenge")
        (getProp data "signature") = .error e ∧
      verifyBiometricSignature c w data =
        ⟨.error (.collaborator e),
          [.registryGet (getProp data "userId"),
            .verify (optProp userDoc "publicKey") (getProp data "challenge")
              (getProp data "signature")], w⟩) ∨
    (isNullish data = false ∧ ∃ userDoc,
      c.get w.registry (getProp data "userId") = .ok userDoc ∧
      toBoolean (optProp userDoc "publicKey") = true ∧
      c.verify (optProp userDoc "publicKey") (getProp data "challenge")
        (getProp data "signature") = .ok false ∧
      verifyBiometricSignature c w data =
        ⟨.error (.httpsError "unauthenticated" "Invalid signature"),
          [.registryGet (getProp data "userId"),
            .verify (optProp userDoc "publicKey") (getProp data "challenge")
              (getProp data "signature")], w⟩) ∨
    (isNullish data = false ∧ ∃ userDoc e t,
      c.get w.registry (getProp data "userId") = .ok userDoc ∧
      toBoolean (optProp userDoc "publicKey") = true ∧
      c.verify (optProp userDoc "publicKey") (getProp data "challenge")
        (getProp data "signature") = .ok true ∧
      c.createCustomToken w.issuer (getProp data "userId") = (.error e, t) ∧
      verifyBiometricSignature c w data =
        ⟨.error (.collaborator e),
          [.registryGet (getProp data "userId"),
            .verify (optProp userDoc "publicKey") (getProp data "challenge")
              (getProp data "signature"),
            .mint (getProp data "userId")], ⟨w.registry, t⟩⟩) ∨
    (isNullish data = false ∧ ∃ userDoc token t,
      c.get w.registry (getProp data "userId") = .ok userDoc ∧
      toBoolean (optProp userDoc "publicKey") = true ∧
      c.verify (optProp userDoc "publicKey") (getProp data "challenge")
        (getProp data "signature") = .ok true ∧
      c.createCustomToken w.issuer (getProp data "userId") = (.ok token, t) ∧
      verifyBiometricSignature c w data =
        ⟨.ok (.str token),
          [.registryGet (getProp data "userId"),
            .verify (optProp userDoc "publicKey") (getProp data "challenge")
              (getProp data "signature"),
            .mint (getProp data "userId")], ⟨w.registry, t⟩⟩) := by
  cases hdata : isNullish data with
  | true => exact Or.inl ⟨rfl, run_of_nullish c w data hdata⟩
  | false =>
    refine Or.inr ?_
    cases hget : c.get w.registry (getProp data "userId") with
    | error e => exact Or.inl ⟨rfl, e, rfl, run_of_get_error c w data e hdata hget⟩
    | ok userDoc =>
      refine Or.inr ?_
      cases hkey : toBoolean (optProp userDoc "publicKey") with
      | false => exact Or.inl ⟨rfl, userDoc, rfl, hkey, run_of_no_key c w data userDoc hdata hget hkey⟩
      | true =>
        refine Or.inr ?_
        cases hverify : c.verify (optProp userDoc "publicKey") (getProp data "challenge")
            (getProp data "signature") with
        | error e =>
          exact Or.inl ⟨rfl, userDoc, e, rfl, hkey, hverify,
            run_of_verify_error c w data userDoc e hdata hget hkey hverify⟩
        | ok isValid =>
          refine Or.inr ?_
          cases isValid with
          | false =>
            exact Or.inl ⟨rfl, userDoc, rfl, hkey, hverify,
              run_of_verify_false c w data userDoc hdata hget hkey hverify⟩
          | true =>
            refine Or.inr ?_
            rcases hmint : c.createCustomToken w.issuer (getProp data "userId") with ⟨r, t⟩
            cases r with
            | error e =>
              exact Or.inl ⟨rfl, userDoc, e, t, rfl, hkey, hverify, rfl,
                run_of_mint_error c w data userDoc e t hdata hget hkey hverify hmint⟩
            | ok token =>
              exact Or.inr ⟨rfl, userDoc, token, t, rfl, hkey, hverify, rfl,
                run_of_mint_ok c w data userDoc token t hdata hget hkey hverify hmint⟩

/-- A run leaves the Key Registry as it found it. -/
theorem run_registry : (verifyBiometricSignature c w data).world.registry = w.registry := by
  rcases run_cases c w data with
    ⟨_, h⟩ | ⟨_, e, _, h⟩ | ⟨_, userDoc, _, _, h⟩ |
    ⟨_, userDoc, e, _, _, _, h⟩ | ⟨_, userDoc, _, _, _, h⟩ |
    ⟨_, userDoc, e, t, _, _, _, _, h⟩ |
    ⟨_, userDoc, token, t, _, _, _, _, h⟩ <;> rw [h]

/-- A sequence of runs leaves the Key Registry as it found it. -/
theorem runCalls_registry (prior : List JSVal) :
    ∀ w : World R T, (runCalls c w prior).registry = w.registry := by
  induction prior with
  | nil => intro w; rfl
  | cons d rest ih =>
    intro w
    simp only [runCalls]
    rw [ih, run_registry]

/-- A run succeeds exactly when the payload can be read, a key is on record, the
verify primitive answers `true` and the issuer mints a token. -/
theorem run_ok_iff :
    (∃ v, (verifyBiometricSignature c w data).outcome = .ok v) ↔
      isNullish data = false ∧ ∃ userDoc token t,
        c.get w.registry (getProp data "userId") = .ok userDoc ∧
        toBoolean (optProp userDoc "publicKey") = true ∧
        c.verify (optProp userDoc "publicKey") (getProp data "challenge")
          (getProp data "signature") = .ok true ∧
        c.createCustomToken w.issuer (getProp data "userId") = (.ok token, t) := by
  constructor
  · rintro ⟨v, hok⟩
    rcases run_cases c w data with
      ⟨_, h⟩ | ⟨_, e, _, h⟩ | ⟨_, userDoc, _, _, h⟩ |
      ⟨_, userDoc, e, _, _, _, h⟩ | ⟨_, userDoc, _, _, _, h⟩ |
      ⟨_, userDoc, e, t, _, _, _, _, h⟩ |
      ⟨hd, userDoc, token, t, hget, hkey, hverify, hmint, h⟩ <;> rw [h] at hok
    all_goals first
      | (cases hok; done)
      | exact ⟨hd, userDoc, token, t, hget, hkey, hverify, hmint⟩
  · rintro ⟨hd, userDoc, token, t, hget, hkey, hverify, hmint⟩
    exact ⟨.str token, by rw [run_of_mint_ok c w data userDoc token t hd hget hkey hverify hmint]⟩

/-- Two runs on the same payload whose collaborators answer alike have the same
outcome and make the same calls. -/
theorem run_congr {R' T' : Type} (c' : Collaborators R' T' E) (w' : World R' T')
    (hget : c'.get w'.registry (getProp data "userId")
      = c.get w.registry (getProp data "userId"))
    (hverify : ∀ userDoc, c.get w.registry (getProp data "userId") = .ok userDoc →
      c'.verify (optProp userDoc "publicKey") (getProp data "challenge")
          (getProp data "signature")
        = c.verify (optProp userDoc "publicKey") (getProp data "challenge")
          (getProp data "signature"))
    (hmint : (c'.createCustomToken w'.issuer (getProp data "userId")).1
      = (c.createCustomToken w.issuer (getProp data "userId")).1) :
    (verifyBiometricSignature c' w' data).outcome
      = (verifyBiometricSignature c w data).outcome ∧
    (verifyBiometricSignature c' w' data).trace
      = (verifyBiometricSignature c w data).trace := by
  rcases run_cases c w data with
    ⟨hd, h⟩ | ⟨hd, e, hg, h⟩ | ⟨hd, userDoc, hg, hkey, h⟩ |
    ⟨hd, userDoc, e, hg, hkey, hv, h⟩ | ⟨hd, userDoc, hg, hkey, hv, h⟩ |
    ⟨hd, userDoc, e, t, hg, hkey, hv, hm, h⟩ |
    ⟨hd, userDoc, token, t, hg, hkey, hv, hm, h⟩
  · rw [h, run_of_nullish c' w' data hd]
    exact ⟨rfl, rfl⟩
  · rw [h, run_of_get_error c' w' data e hd (hget.trans hg)]
    exact ⟨rfl, rfl⟩
  · rw [h, run_of_no_key c' w' data userDoc hd (hget.trans hg) hkey]
    exact ⟨rfl, rfl⟩
  · rw [h, run_of_verify_error c' w' data userDoc e hd (hget.trans hg) hkey
      ((hverify userDoc hg).trans hv)]
    exact ⟨rfl, rfl⟩
  · rw [h, run_of_verify_false c' w' data userDoc hd (hget.trans hg) hkey
      ((hverify userDoc hg).trans hv)]
    exact ⟨rfl, rfl⟩
  · rw [hm] at hmint
    rcases hm' : c'.createCustomToken w'.issuer (getProp data "userId") with ⟨r, t'⟩
    rw [hm'] at hmint
    simp only at hmint
    subst hmint
    rw [h, run_of_mint_error c' w' data userDoc e t' hd (hget.trans hg) hkey
      ((hverify userDoc hg).trans hv) hm']
    exact ⟨rfl, rfl⟩
  · rw [hm] at hmint
    rcases hm' : c'.createCustomToken w'.issuer (getProp data "userId") with ⟨r, t'⟩
    rw [hm'] at hmint
    simp only at hmint
    subst hmint
    rw [h, run_of_mint_ok c' w' data userDoc token t' hd (hget.trans hg) hkey
      ((hverify userDoc hg).trans hv) hm']
    exact ⟨rfl, rfl⟩

end Paths

/-! ## The success path -/

/-- C1: when the payload can be read, the Key Registry returns a document whose
`publicKey` is present (truthy, as every non-empty PEM string is), the verify
primitive answers `true` for that key with the payload's challenge and signature,
and the Token Issuer mints `token` for the payload's `userId`, the handler
succeeds with exactly that token; the `userId` of the mint is the `userId` of
the lookup, and a non-empty token gives a non-empty result. -/
theorem valid_signature_returns_minted_token {R T E : Type}
    (c : Collaborators R T E) (w : World R T) (data userDoc : JSVal)
    (token : String) (t : T)
    (hdata : isNullish data = false)
    (hget : c.get w.registry (getProp data "userId") = .ok userDoc)
    (hkey : toBoolean (optProp userDoc "publicKey") = true)
    (hverify : c.verify (optProp userDoc "publicKey") (getProp data "challenge")
      (getProp data "signature") = .ok true)
    (hmint : c.createCustomToken w.issuer (getProp data "userId") = (.ok token, t)) :
    (verifyBiometricSignature c w data).outcome = .ok (.str token) ∧
    (verifyBiometricSignature c w data).trace =
      [.registryGet (getProp data "userId"),
        .verify (optProp userDoc "publicKey") (getProp data "challenge")
          (getProp data "signature"),
        .mint (getProp data "userId")] ∧
    (token ≠ "" → (verifyBiometricSignature c w data).outcome ≠ .ok (.str "")) := by
  rw [run_of_mint_ok c w data userDoc token t hdata hget hkey hverify hmint]
  refine ⟨rfl, rfl, ?_⟩
  intro hne h
  simp only [Except.ok.injEq, JSVal.str.injEq] at h
  exact hne h

/-- C1 at scenario 1 of the spec: the registered user `"u1"` presents the
signature the primitive accepts over `"nonce-abc"`. -/
theorem valid_signature_returns_minted_token_witness :
    (verifyBiometricSignature demo world0
      (request (.str "u1") (.str "nonce-abc") (.str "c2ln"))).outcome
        = .ok (.str "token-0") ∧
    (verifyBiometricSignature demo world0
      (request (.str "u1") (.str "nonce-abc") (.str "c2ln"))).trace =
      [.registryGet (.str "u1"),
        .verify (.str "PEM") (.str "nonce-abc") (.str "c2ln"),
        .mint (.str "u1")] ∧
    ("token-0" ≠ "" →
      (verifyBiometricSignature demo world0
        (request (.str "u1") (.str "nonce-abc") (.str "c2ln"))).outcome
          ≠ .ok (.str "")) :=
  valid_signature_returns_minted_token demo world0
    (request (.str "u1") (.str "nonce-abc") (.str "c2ln")) keyDoc "token-0" 1
    rfl rfl rfl rfl rfl

/-! ## The order of the calls -/

/-- C2: the calls of a run are an initial part of the sequence registry read of
`userId`, verification with the fetched key, mint for `userId`; a payload
that can be read always starts with the registry read; a verification uses the
key the read returned; a mint happens only after the read returned a key and
the verification answered `true`; a run that ends in `not-found` or
`unauthenticated` has no mint; no call is a registry write and the registry is
left as it was. -/
theorem calls_in_order_and_mint_only_after_verification {R T E : Type}
    (c : Collaborators R T E) (w : World R T) (data : JSVal) :
    (∃ publicKey, (verifyBiometricSignature c w data).trace <+:
      [.registryGet (getProp data "userId"),
        .verify publicKey (getProp data "challenge") (getProp data "signature"),
        .mint (getProp data "userId")]) ∧
    (isNullish data = false →
      (verifyBiometricSignature c w data).trace.head?
        = some (.registryGet (getProp data "userId"))) ∧
    (∀ publicKey challenge signature,
      Event.verify publicKey challenge signature
          ∈ (verifyBiometricSignature c w data).trace →
        ∃ userDoc, c.get w.registry (getProp data "userId") = .ok userDoc ∧
          publicKey = optProp userDoc "publicKey" ∧ toBoolean publicKey = true ∧
          challenge = getProp data "challenge" ∧
          signature = getProp data "signature") ∧
    (∀ userId, Event.mint userId ∈ (verifyBiometricSignature c w data).trace →
        userId = getProp data "userId" ∧
        ∃ userDoc, c.get w.registry (getProp data "userId") = .ok userDoc ∧
          toBoolean (optProp userDoc "publicKey") = true ∧
          c.verify (optProp userDoc "publicKey") (getProp data "challenge")
            (getProp data "signature") = .ok true) ∧
    (∀ code message,
      (verifyBiometricSignature c w data).outcome = .error (.httpsError code message) →
        code = "not-found" ∨ code = "unauthenticated" →
        ∀ ev ∈ (verifyBiometricSignature c w data).trace, ev.isMint = false) ∧
    (∀ ev ∈ (verifyBiometricSignature c w data).trace, ev.isWrite = false) ∧
    (verifyBiometricSignature c w data).world.registry = w.registry := by
  rcases run_cases c w data with
    ⟨hd, h⟩ | ⟨hd, e, hget, h⟩ | ⟨hd, userDoc, hget, hkey, h⟩ |
    ⟨hd, userDoc, e, hget, hkey, hverify, h⟩ | ⟨hd, userDoc, hget, hkey, hverify, h⟩ |
    ⟨hd, userDoc, e, t, hget, hkey, hverify, hmint, h⟩ |
    ⟨hd, userDoc, token, t, hget, hkey, hverify, hmint, h⟩
  · rw [h]
    refine ⟨⟨.undefined, List.nil_prefix⟩, ?_, ?_, ?_, ?_, ?_, rfl⟩ <;> simp [hd]
  · rw [h]
    refine ⟨⟨.undefined, ⟨_, rfl⟩⟩, ?_, ?_, ?_, ?_, ?_, rfl⟩ <;> simp [Event.isWrite]
  · rw [h]
    refine ⟨⟨.undefined, ⟨_, rfl⟩⟩, ?_, ?_, ?_, ?_, ?_, rfl⟩ <;>
      simp [Event.isWrite, Event.isMint]
  · rw [h]
    refine ⟨⟨optProp userDoc "publicKey", ⟨_, rfl⟩⟩, ?_, ?_, ?_, ?_, ?_, rfl⟩ <;>
      simp [Event.isWrite, hget, hkey]
    rintro _ _ _ rfl rfl rfl
    exact ⟨rfl, hkey, rfl, rfl⟩
  · rw [h]
    refine ⟨⟨optProp userDoc "publicKey", ⟨_, rfl⟩⟩, ?_, ?_, ?_, ?_, ?_, rfl⟩ <;>
      simp [Event.isWrite, Event.isMint, hget, hkey]
    rintro _ _ _ rfl rfl rfl
    exact ⟨rfl, hkey, rfl, rfl⟩
  · rw [h]
    refine ⟨⟨optProp userDoc "publicKey", ⟨_, rfl⟩⟩, ?_, ?_, ?_, ?_, ?_, rfl⟩ <;>
      simp [Event.isWrite, hget, hkey, hverify]
    rintro _ _ _ rfl rfl rfl
    exact ⟨rfl, hkey, rfl, rfl⟩
  · rw [h]
    refine ⟨⟨optProp userDoc "publicKey", ⟨_, rfl⟩⟩, ?_, ?_, ?_, ?_, ?_, rfl⟩ <;>
      simp [Event.isWrite, hget, hkey, hverify]
    rintro _ _ _ rfl rfl rfl
    exact ⟨rfl, hkey, rfl, rfl⟩

/-- C2 at scenario 1 of the spec: the run mints for `"u1"`, so the read returned
a key and the verification answered `true`. -/
theorem calls_in_order_and_mint_only_after_verification_witness :
    JSVal.str "u1"
      = getProp (request (.str "u1") (.str "nonce-abc") (.str "c2ln")) "userId" ∧
    ∃ userDoc,
      demo.get world0.registry
        (getProp (request (.str "u1") (.str "nonce-abc") (.str "c2ln")) "userId")
        = .ok userDoc ∧
      toBoolean (optProp userDoc "publicKey") = true ∧
      demo.verify (optProp userDoc "publicKey")
        (getProp (request (.str "u1") (.str "nonce-abc") (.str "c2ln")) "challenge")
        (getProp (request (.str "u1") (.str "nonce-abc") (.str "c2ln")) "signature")
        = .ok true :=
  (calls_in_order_and_mint_only_after_verification demo world0
    (request (.str "u1") (.str "nonce-abc") (.str "c2ln"))).2.2.2.1 (.str "u1")
    (.tail _ (.tail _ (.head _)))

/-! ## Rejected signatures and missing keys -/

/-- C3: when a key is on record for the payload's `userId` and the verify
primitive answers `false`, the handler throws the `HttpsError` with code
`unauthenticated` and message `Invalid signature`, the same value for every such
request, and the Token Issuer is not called. -/
theorem rejected_signature_is_unauthenticated {R T E : Type}
    (c : Collaborators R T E) (w : World R T) (data userDoc : JSVal)
    (hdata : isNullish data = false)
    (hget : c.get w.registry (getProp data "userId") = .ok userDoc)
    (hkey : toBoolean (optProp userDoc "publicKey") = true)
    (hverify : c.verify (optProp userDoc "publicKey") (getProp data "challenge")
      (getProp data "signature") = .ok false) :
    (verifyBiometricSignature c w data).outcome
      = .error (.httpsError "unauthenticated" "Invalid signature") ∧
    (∀ ev ∈ (verifyBiometricSignature c w data).trace, ev.isMint = false) := by
  rw [run_of_verify_false c w data userDoc hdata hget hkey hverify]
  refine ⟨rfl, ?_⟩
  simp [Event.isMint]

/-- C3 at scenario 3 of the spec: `"u1"` presents a signature made with another
key. -/
theorem rejected_signature_is_unauthenticated_witness :
    (verifyBiometricSignature demo world0
      (request (.str "u1") (.str "nonce-abc") (.str "b3RoZXI="))).outcome
      = .error (.httpsError "unauthenticated" "Invalid signature") ∧
    (∀ ev ∈ (verifyBiometricSignature demo world0
      (request (.str "u1") (.str "nonce-abc") (.str "b3RoZXI="))).trace,
        ev.isMint = false) :=
  rejected_signature_is_unauthenticated demo world0
    (request (.str "u1") (.str "nonce-abc") (.str "b3RoZXI=")) keyDoc
    rfl rfl rfl rfl

/-- C4, as the spec states it, fails: the registry holds no record for the
identifier `"a/b"`, yet `doc("a/b")` does not accept it, the read throws, and
the handler ends with the read's failure, not with the `HttpsError` of code
`not-found`. -/
theorem missing_key_counterexample :
    demoRecords.lookup "a/b" = none ∧
    demo.get world0.registry (.str "a/b") = .error "invalid documentPath" ∧
    (verifyBiometricSignature demo world0
      (request (.str "a/b") (.str "nonce-abc") (.str "c2ln"))).outcome
      = .error (.collaborator "invalid documentPath") ∧
    (∀ message, (verifyBiometricSignature demo world0
      (request (.str "a/b") (.str "nonce-abc") (.str "c2ln"))).outcome
      ≠ .error (.httpsError "not-found" message)) :=
  ⟨rfl, rfl, rfl, fun _ h => (by cases h)⟩

/-- C4, amended: when the registry read returns, with no document for the
payload's `userId` or a document without the field `publicKey`, the handler
throws the `HttpsError` with code `not-found` whatever the challenge, the
signature and the verify primitive are: the registry read is its only call. -/
theorem missing_key_is_not_found {R T E : Type}
    (c : Collaborators R T E) (w : World R T) (data userDoc : JSVal)
    (hdata : isNullish data = false)
    (hget : c.get w.registry (getProp data "userId") = .ok userDoc)
    (hno : userDoc = .undefined ∨
      ∃ fields, userDoc = .obj fields ∧ fields.lookup "publicKey" = none) :
    (verifyBiometricSignature c w data).outcome
      = .error (.httpsError "not-found" "Public key not found") ∧
    (verifyBiometricSignature c w data).trace
      = [.registryGet (getProp data "userId")] := by
  have hkey : toBoolean (optProp userDoc "publicKey") = false := by
    rcases hno with rfl | ⟨fields, rfl, hnone⟩
    · rfl
    · rw [optProp_obj_of_lookup_none fields "publicKey" hnone]
      rfl
  rw [run_of_no_key c w data userDoc hdata hget hkey]
  exact ⟨rfl, rfl⟩

/-- C4, amended, at scenario 2 of the spec: nobody registered `"u2"`, and the
signature presented is the one the primitive accepts. -/
theorem missing_key_is_not_found_witness :
    (verifyBiometricSignature demo world0
      (request (.str "u2") (.str "nonce-abc") (.str "c2ln"))).outcome
      = .error (.httpsError "not-found" "Public key not found") ∧
    (verifyBiometricSignature demo world0
      (request (.str "u2") (.str "nonce-abc") (.str "c2ln"))).trace
      = [.registryGet (.str "u2")] :=
  missing_key_is_not_found demo world0
    (request (.str "u2") (.str "nonce-abc") (.str "c2ln")) .undefined
    rfl rfl (Or.inl rfl)

/-! ## A verify primitive that throws -/

/-- C5, as the spec states it, fails: the stored key of `"u3"` cannot be
parsed, the verify primitive throws, and the handler ends with the primitive's
own failure, not with the `HttpsError` of code `unauthenticated`. -/
theorem verify_throw_counterexample :
    demo.get world0.registry (.str "u3") = .ok (.obj [("publicKey", .str "garbage")]) ∧
    demo.verify (.str "garbage") (.str "nonce-abc") (.str "c2ln")
      = .error "ERR_OSSL_UNSUPPORTED" ∧
    (verifyBiometricSignature demo world0
      (request (.str "u3") (.str "nonce-abc") (.str "c2ln"))).outcome
      = .error (.collaborator "ERR_OSSL_UNSUPPORTED") ∧
    (∀ message, (verifyBiometricSignature demo world0
      (request (.str "u3") (.str "nonce-abc") (.str "c2ln"))).outcome
      ≠ .error (.httpsError "unauthenticated" message)) :=
  ⟨rfl, rfl, rfl, fun _ h => by cases h⟩

/-- C5, amended: when a key is on record and the verify primitive throws, the
handler does not catch it: the run ends with the primitive's own failure,
passed on unchanged, no `HttpsError` is built and the Token Issuer is not
called. -/
theorem verify_throw_propagates {R T E : Type}
    (c : Collaborators R T E) (w : World R T) (data userDoc : JSVal) (e : E)
    (hdata : isNullish data = false)
    (hget : c.get w.registry (getProp data "userId") = .ok userDoc)
    (hkey : toBoolean (optProp userDoc "publicKey") = true)
    (hverify : c.verify (optProp userDoc "publicKey") (getProp data "challenge")
      (getProp data "signature") = .error e) :
    (verifyBiometricSignature c w data).outcome = .error (.collaborator e) ∧
    (∀ code message, (verifyBiometricSignature c w data).outcome
      ≠ .error (.httpsError code message)) ∧
    (∀ ev ∈ (verifyBiometricSignature c w data).trace, ev.isMint = false) := by
  rw [run_of_verify_error c w data userDoc e hdata hget hkey hverify]
  refine ⟨rfl, fun _ _ h => (by cases h), ?_⟩
  simp [Event.isMint]

/-- C5, amended, at a signature that is not a string under the key of `"u1"`. -/
theorem verify_throw_propagates_witness :
    (verifyBiometricSignature demo world0
      (request (.str "u1") (.str "nonce-abc") (.num 7))).outcome
      = .error (.collaborator "ERR_INVALID_ARG_TYPE") ∧
    (∀ code message, (verifyBiometricSignature demo world0
      (request (.str "u1") (.str "nonce-abc") (.num 7))).outcome
      ≠ .error (.httpsError code message)) ∧
    (∀ ev ∈ (verifyBiometricSignature demo world0
      (request (.str "u1") (.str "nonce-abc") (.num 7))).trace,
        ev.isMint = false) :=
  verify_throw_propagates demo world0
    (request (.str "u1") (.str "nonce-abc") (.num 7)) keyDoc "ERR_INVALID_ARG_TYPE"
    rfl rfl rfl rfl

/-! ## Failures of the collaborators -/

/-- C6: when the registry read fails, and when the read and the verification
pass but the Token Issuer fails, the run ends with that very failure, passed on
unchanged; the platform reports it under the internal code and no credential is
returned. -/
theorem collaborator_failure_propagates {R T E : Type}
    (c : Collaborators R T E) (w : World R T) (data : JSVal)
    (internalCode : String) :
    (∀ e, isNullish data = false →
      c.get w.registry (getProp data "userId") = .error e →
        (verifyBiometricSignature c w data).outcome = .error (.collaborator e) ∧
        surfacedCode internalCode (verifyBiometricSignature c w data).outcome
          = some internalCode ∧
        (∀ v, (verifyBiometricSignature c w data).outcome ≠ .ok v)) ∧
    (∀ userDoc e t, isNullish data = false →
      c.get w.registry (getProp data "userId") = .ok userDoc →
      toBoolean (optProp userDoc "publicKey") = true →
      c.verify (optProp userDoc "publicKey") (getProp data "challenge")
        (getProp data "signature") = .ok true →
      c.createCustomToken w.issuer (getProp data "userId") = (.error e, t) →
        (verifyBiometricSignature c w data).outcome = .error (.collaborator e) ∧
        surfacedCode internalCode (verifyBiometricSignature c w data).outcome
          = some internalCode ∧
        (∀ v, (verifyBiometricSignature c w data).outcome ≠ .ok v)) := by
  constructor
  · intro e hdata hget
    rw [run_of_get_error c w data e hdata hget]
    exact ⟨rfl, rfl, fun v h => by cases h⟩
  · intro userDoc e t hdata hget hkey hverify hmint
    rw [run_of_mint_error c w data userDoc e t hdata hget hkey hverify hmint]
    exact ⟨rfl, rfl, fun v h => by cases h⟩

/-- C6 at scenario 5 of the spec: the issuer is unreachable for `"down"`, whose
signature verifies. -/
theorem collaborator_failure_propagates_witness :
    (verifyBiometricSignature demo world0
      (request (.str "down") (.str "nonce-abc") (.str "c2ln"))).outcome
      = .error (.collaborator "auth/network-request-failed") ∧
    surfacedCode "internal" (verifyBiometricSignature demo world0
      (request (.str "down") (.str "nonce-abc") (.str "c2ln"))).outcome
      = some "internal" ∧
    (∀ v, (verifyBiometricSignature demo world0
      (request (.str "down") (.str "nonce-abc") (.str "c2ln"))).outcome ≠ .ok v) :=
  (collaborator_failure_propagates demo world0
    (request (.str "down") (.str "nonce-abc") (.str "c2ln")) "internal").2
    keyDoc "auth/network-request-failed" 0 rfl rfl rfl rfl rfl

/-! ## The shape of the result -/

/-- C7, as the spec states it, fails: the successful call of scenario 1 resolves
to the token string itself, a value with no field `token`. -/
theorem result_shape_counterexample :
    (verifyBiometricSignature demo world0
      (request (.str "u1") (.str "nonce-abc") (.str "c2ln"))).outcome
      = .ok (.str "token-0") ∧
    (∀ token, (verifyBiometricSignature demo world0
      (request (.str "u1") (.str "nonce-abc") (.str "c2ln"))).outcome
      ≠ .ok (.obj [("token", .str token)])) ∧
    getProp (.str "token-0") "token" = .undefined :=
  ⟨rfl, fun _ h => (by cases h), rfl⟩

/-- C7, amended: the value of a successful call is the string the Token Issuer
minted for the payload's `userId`, not wrapped in an object. -/
theorem result_is_the_token_string {R T E : Type}
    (c : Collaborators R T E) (w : World R T) (data v : JSVal)
    (hok : (verifyBiometricSignature c w data).outcome = .ok v) :
    ∃ token t,
      c.createCustomToken w.issuer (getProp data "userId") = (.ok token, t) ∧
      v = .str token ∧ getProp v "token" = .undefined := by
  rcases run_cases c w data with
    ⟨_, h⟩ | ⟨_, e, _, h⟩ | ⟨_, userDoc, _, _, h⟩ |
    ⟨_, userDoc, e, _, _, _, h⟩ | ⟨_, userDoc, _, _, _, h⟩ |
    ⟨_, userDoc, e, t, _, _, _, _, h⟩ |
    ⟨_, userDoc, token, t, _, _, _, hmint, h⟩ <;> rw [h] at hok
  all_goals first
    | (cases hok; done)
    | (simp only [Except.ok.injEq] at hok
       exact ⟨token, t, hmint, hok.symm, by rw [← hok]; rfl⟩)

/-- C7, amended, at the successful call of scenario 1. -/
theorem result_is_the_token_string_witness :
    ∃ token t,
      demo.createCustomToken world0.issuer
        (getProp (request (.str "u1") (.str "nonce-abc") (.str "c2ln")) "userId")
        = (.ok token, t) ∧
      JSVal.str "token-0" = .str token ∧
      getProp (JSVal.str "token-0") "token" = .undefined :=
  result_is_the_token_string demo world0
    (request (.str "u1") (.str "nonce-abc") (.str "c2ln")) (.str "token-0") rfl

/-! ## The error codes -/

/-- C8: whatever the payload and the collaborators do, a run either succeeds or
is reported under `not-found`, `unauthenticated` or the internal code; the
only `HttpsError` values the handler throws are the two it builds itself. -/
theorem error_codes_are_three {R T E : Type}
    (c : Collaborators R T E) (w : World R T) (data : JSVal)
    (internalCode : String) :
    ((∃ v, (verifyBiometricSignature c w data).outcome = .ok v) ∨
      surfacedCode internalCode (verifyBiometricSignature c w data).outcome
        = some "not-found" ∨
      surfacedCode internalCode (verifyBiometricSignature c w data).outcome
        = some "unauthenticated" ∨
      surfacedCode internalCode (verifyBiometricSignature c w data).outcome
        = some internalCode) ∧
    (∀ code message,
      (verifyBiometricSignature c w data).outcome
        = .error (.httpsError code message) →
      (code = "not-found" ∧ message = "Public key not found") ∨
      (code = "unauthenticated" ∧ message = "Invalid signature")) := by
  rcases run_cases c w data with
    ⟨_, h⟩ | ⟨_, e, _, h⟩ | ⟨_, userDoc, _, _, h⟩ |
    ⟨_, userDoc, e, _, _, _, h⟩ | ⟨_, userDoc, _, _, _, h⟩ |
    ⟨_, userDoc, e, t, _, _, _, _, h⟩ |
    ⟨_, userDoc, token, t, _, _, _, _, h⟩ <;> rw [h] <;> simp [surfacedCode]

/-! ## Request validation -/

/-- C9, as the spec states it, fails: a request whose challenge and signature
are empty strings is not turned away with an invalid-argument error.  The
verify primitive is called with the two empty strings, and the error is the
`unauthenticated` one of a rejected signature. -/
theorem request_validation_counterexample :
    getProp (request (.str "u1") (.str "") (.str "")) "challenge" = .str "" ∧
    getProp (request (.str "u1") (.str "") (.str "")) "signature" = .str "" ∧
    (verifyBiometricSignature demo world0
      (request (.str "u1") (.str "") (.str ""))).outcome
      = .error (.httpsError "unauthenticated" "Invalid signature") ∧
    (∀ message, (verifyBiometricSignature demo world0
      (request (.str "u1") (.str "") (.str ""))).outcome
      ≠ .error (.httpsError "invalid-argument" message)) ∧
    (verifyBiometricSignature demo world0
      (request (.str "u1") (.str "") (.str ""))).trace
      = [.registryGet (.str "u1"), .verify (.str "PEM") (.str "") (.str "")] :=
  ⟨rfl, rfl, rfl,
    fun _ h => absurd (Thrown.httpsError.inj (Except.error.inj h)).1 (by decide),
    rfl⟩

/-- C9, amended: the handler checks no field of the payload and never throws
an invalid-argument error.  For every payload that can be destructured,
whatever its `userId`, challenge and signature are, the registry is read with
the payload's `userId`; a failed read ends the run with the read's failure;
a missing key ends it with `not-found`; otherwise the verify primitive is
called with the payload's challenge and signature as they are and the outcome
follows its result: what it throws is passed on, `false` gives
`unauthenticated`, and `true` gives the Token Issuer's result, the minted
token or the issuer's failure. -/
theorem no_request_validation {R T E : Type}
    (c : Collaborators R T E) (w : World R T) (data : JSVal) :
    (∀ message, (verifyBiometricSignature c w data).outcome
      ≠ .error (.httpsError "invalid-argument" message)) ∧
    (isNullish data = false →
      (verifyBiometricSignature c w data).trace.head?
        = some (.registryGet (getProp data "userId"))) ∧
    (∀ e, isNullish data = false →
      c.get w.registry (getProp data "userId") = .error e →
        (verifyBiometricSignature c w data).outcome = .error (.collaborator e)) ∧
    (∀ userDoc, isNullish data = false →
      c.get w.registry (getProp data "userId") = .ok userDoc →
      toBoolean (optProp userDoc "publicKey") = false →
        (verifyBiometricSignature c w data).outcome
          = .error (.httpsError "not-found" "Public key not found")) ∧
    (∀ userDoc, isNullish data = false →
      c.get w.registry (getProp data "userId") = .ok userDoc →
      toBoolean (optProp userDoc "publicKey") = true →
        Event.verify (optProp userDoc "publicKey") (getProp data "challenge")
          (getProp data "signature") ∈ (verifyBiometricSignature c w data).trace ∧
        (∀ e, c.verify (optProp userDoc "publicKey") (getProp data "challenge")
            (getProp data "signature") = .error e →
          (verifyBiometricSignature c w data).outcome = .error (.collaborator e)) ∧
        (c.verify (optProp userDoc "publicKey") (getProp data "challenge")
            (getProp data "signature") = .ok false →
          (verifyBiometricSignature c w data).outcome
            = .error (.httpsError "unauthenticated" "Invalid signature")) ∧
        (∀ token t, c.verify (optProp userDoc "publicKey") (getProp data "challenge")
            (getProp data "signature") = .ok true →
          c.createCustomToken w.issuer (getProp data "userId") = (.ok token, t) →
          (verifyBiometricSignature c w data).outcome = .ok (.str token)) ∧
        (∀ e t, c.verify (optProp userDoc "publicKey") (getProp data "challenge")
            (getProp data "signature") = .ok true →
          c.createCustomToken w.issuer (getProp data "userId") = (.error e, t) →
          (verifyBiometricSignature c w data).outcome = .error (.collaborator e))) := by
  refine ⟨?_, ?_, ?_, ?_, ?_⟩
  · intro message hbad
    rcases run_cases c w data with
      ⟨_, h⟩ | ⟨_, e, _, h⟩ | ⟨_, userDoc, _, _, h⟩ |
      ⟨_, userDoc, e, _, _, _, h⟩ | ⟨_, userDoc, _, _, _, h⟩ |
      ⟨_, userDoc, e, t, _, _, _, _, h⟩ |
      ⟨_, userDoc, token, t, _, _, _, _, h⟩ <;> rw [h] at hbad <;>
      simp at hbad
  · intro hdata
    rcases run_cases c w data with
      ⟨hd, _⟩ | ⟨_, e, _, h⟩ | ⟨_, userDoc, _, _, h⟩ |
      ⟨_, userDoc, e, _, _, _, h⟩ | ⟨_, userDoc, _, _, _, h⟩ |
      ⟨_, userDoc, e, t, _, _, _, _, h⟩ |
      ⟨_, userDoc, token, t, _, _, _, _, h⟩
    · rw [hdata] at hd
      cases hd
    all_goals rw [h]; rfl
  · intro e hdata hget
    rw [run_of_get_error c w data e hdata hget]
  · intro userDoc hdata hget hkey
    rw [run_of_no_key c w data userDoc hdata hget hkey]
  · intro userDoc hdata hget hkey
    refine ⟨?_, ?_, ?_, ?_, ?_⟩
    · cases hverify : c.verify (optProp userDoc "publicKey") (getProp data "challenge")
          (getProp data "signature") with
      | error e =>
        rw [run_of_verify_error c w data userDoc e hdata hget hkey hverify]
        simp
      | ok isValid =>
        cases isValid with
        | false =>
          rw [run_of_verify_false c w data userDoc hdata hget hkey hverify]
          simp
        | true =>
          rcases hmint : c.createCustomToken w.issuer (getProp data "userId") with ⟨r, t⟩
          cases r with
          | error e =>
            rw [run_of_mint_error c w data userDoc e t hdata hget hkey hverify hmint]
            simp
          | ok token =>
            rw [run_of_mint_ok c w data userDoc token t hdata hget hkey hverify hmint]
            simp
    · intro e hverify
      rw [run_of_verify_error c w data userDoc e hdata hget hkey hverify]
    · intro hverify
      rw [run_of_verify_false c w data userDoc hdata hget hkey hverify]
    · intro token t hverify hmint
      rw [run_of_mint_ok c w data userDoc token t hdata hget hkey hverify hmint]
    · intro e t hverify hmint
      rw [run_of_mint_error c w data userDoc e t hdata hget hkey hverify hmint]

/-- C9, amended, at the payload `{userId: "u1"}`, which has neither challenge
nor signature: nothing turns it away, the verify primitive is called with
`undefined` for both, and what it throws ends the run. -/
theorem no_request_validation_witness :
    Event.verify (.str "PEM") .undefined .undefined
      ∈ (verifyBiometricSignature demo world0 (.obj [("userId", .str "u1")])).trace ∧
    (verifyBiometricSignature demo world0 (.obj [("userId", .str "u1")])).outcome
      = .error (.collaborator "ERR_INVALID_ARG_TYPE") :=
  ⟨((no_request_validation demo world0 (.obj [("userId", .str "u1")])).2.2.2.2
      keyDoc rfl rfl rfl).1,
    ((no_request_validation demo world0 (.obj [("userId", .str "u1")])).2.2.2.2
      keyDoc rfl rfl rfl).2.1 "ERR_INVALID_ARG_TYPE" rfl⟩

/-! ## No state between calls -/

/-- C10: a call that succeeded succeeds again in every later world with the same
Key Registry contents and an issuer that mints for the `userId`; calls of the
handler, however many, leave the registry contents as they were; and two runs
on one payload whose collaborators answer alike have the same outcome and
make the same calls. -/
theorem replay_succeeds_and_outcome_is_stateless {R T E : Type}
    (c : Collaborators R T E) (w : World R T) (data : JSVal) :
    (∀ w' : World R T, w'.registry = w.registry →
      (∃ v, (verifyBiometricSignature c w data).outcome = .ok v) →
      (∃ token t,
        c.createCustomToken w'.issuer (getProp data "userId") = (.ok token, t)) →
      ∃ v, (verifyBiometricSignature c w' data).outcome = .ok v) ∧
    (∀ prior : List JSVal, (runCalls c w prior).registry = w.registry) ∧
    (∀ (R' T' : Type) (c' : Collaborators R' T' E) (w' : World R' T'),
      c'.get w'.registry (getProp data "userId")
        = c.get w.registry (getProp data "userId") →
      (∀ userDoc, c.get w.registry (getProp data "userId") = .ok userDoc →
        c'.verify (optProp userDoc "publicKey") (getProp data "challenge")
            (getProp data "signature")
          = c.verify (optProp userDoc "publicKey") (getProp data "challenge")
            (getProp data "signature")) →
      (c'.createCustomToken w'.issuer (getProp data "userId")).1
        = (c.createCustomToken w.issuer (getProp data "userId")).1 →
      (verifyBiometricSignature c' w' data).outcome
        = (verifyBiometricSignature c w data).outcome ∧
      (verifyBiometricSignature c' w' data).trace
        = (verifyBiometricSignature c w data).trace) := by
  refine ⟨?_, fun prior => runCalls_registry c prior w, ?_⟩
  · intro w' hreg hok hissuer
    obtain ⟨hd, userDoc, _, _, hget, hkey, hverify, _⟩ := (run_ok_iff c w data).1 hok
    obtain ⟨token, t, hmint⟩ := hissuer
    exact (run_ok_iff c w' data).2
      ⟨hd, userDoc, token, t, by rw [hreg]; exact hget, hkey, hverify, hmint⟩
  · intro R' T' c' w' hget hverify hmint
    exact run_congr c w data c' w' hget hverify hmint

/-- C10 at a replay: after scenario 1 ran twice, the same request succeeds a
third time. -/
theorem replay_succeeds_and_outcome_is_stateless_witness :
    ∃ v, (verifyBiometricSignature demo
      (runCalls demo world0
        [request (.str "u1") (.str "nonce-abc") (.str "c2ln"),
          request (.str "u1") (.str "nonce-abc") (.str "c2ln")])
      (request (.str "u1") (.str "nonce-abc") (.str "c2ln"))).outcome = .ok v :=
  (replay_succeeds_and_outcome_is_stateless demo world0
    (request (.str "u1") (.str "nonce-abc") (.str "c2ln"))).1
    (runCalls demo world0
      [request (.str "u1") (.str "nonce-abc") (.str "c2ln"),
        request (.str "u1") (.str "nonce-abc") (.str "c2ln")])
    rfl ⟨.str "token-0", rfl⟩ ⟨"token-2", 3, rfl⟩

end SessionsIS
